import Mathlib

/-!
Shallow embedding of the task-synchronisation engine of the repository
(`src/services/syncService.ts`, `src/services/taskService.ts`,
`src/routes/tasks.ts`).  Pure data is modelled with Lean structures;
the SQLite tables become lists carried in an explicit `DBState`;
`uuidv4` becomes a fresh-id counter in the state; JavaScript `Date`
timestamps become `Int` (milliseconds, as produced by `getTime()`);
the remote authority of `processBatch` becomes an explicit responder
function returning `Except` (transport failure = `Except.error`,
mirroring the `throw` that the per-batch `catch` intercepts).
-/

namespace TaskSync

/-- Entity synchronisation status, the values `'pending' | 'synced' | 'error'`
of the `sync_status` column. -/
inductive SyncStatus
  | pending
  | synced
  | error
  deriving Repr, DecidableEq

/-- Status of one processed item in a batch response,
the union type `'success' | 'conflict' | 'error'`. -/
inductive OutcomeStatus
  | success
  | conflict
  | error
  deriving Repr, DecidableEq

/-- Operation kind of a sync-queue entry, `'create' | 'update' | 'delete'`. -/
inductive Op
  | create
  | update
  | delete
  deriving Repr, DecidableEq

/-- The `Task` record of `types.ts` / the `tasks` table.  Identifiers are
modelled as `Nat` (uuids are only compared for equality), timestamps as
`Int` milliseconds. -/
structure Task where
  id : Nat
  title : String
  description : Option String
  completed : Bool
  created_at : Int
  updated_at : Int
  is_deleted : Bool
  sync_status : SyncStatus
  server_id : Option Nat
  last_synced_at : Option Int
  deriving Repr, DecidableEq

/-- Serialized payload snapshot stored in a queue entry's `data` column:
either `JSON.stringify(task)` (a full task snapshot) or
`JSON.stringify({ id })` (as written by `deleteTask`). -/
inductive Payload
  | snapshot (t : Task)
  | idOnly (id : Nat)
  deriving Repr, DecidableEq

/-- A row of the `sync_queue` table (`SyncQueueItem` in `types.ts`). -/
structure SyncQueueItem where
  id : Nat
  task_id : Nat
  operation : Op
  data : Payload
  created_at : Int
  retry_count : Nat
  error_message : Option String
  deriving Repr, DecidableEq

/-- One element of `BatchSyncResponse.processed_items`. -/
structure ProcessedItem where
  client_id : Nat
  server_id : Option Nat
  status : OutcomeStatus
  resolved_data : Option Task
  error : Option String
  deriving Repr, DecidableEq

/-- One element of `SyncResult.errors` (the per-failure error record). -/
structure SyncError where
  task_id : Nat
  operation : Op
  error : String
  deriving Repr, DecidableEq

/-- The `SyncResult` returned by `SyncService.sync`. -/
structure SyncResult where
  success : Bool
  synced_items : Nat
  failed_items : Nat
  errors : List SyncError
  deriving Repr, DecidableEq

/-- The persistent store: the `tasks` table, the `sync_queue` table (kept in
`created_at` ascending order, which is the order `ORDER BY created_at ASC`
returns, since every insert uses the current clock), and a counter supplying
the fresh identifiers that `uuidv4()` produces. -/
structure DBState where
  tasks : List Task
  sync_queue : List SyncQueueItem
  nextId : Nat
  deriving Repr, DecidableEq

/-- The `MAX_RETRY_COUNT` field of `SyncService`, fixed at 3. -/
def MAX_RETRY_COUNT : Nat := 3

/-- The batch size computed in the `SyncService` constructor:
`Number(process.env.SYNC_BATCH_SIZE) || 10`.  An absent variable gives
`NaN`, and `NaN` and `0` are falsy, so both fall back to 10. -/
def syncBatchSizeOf : Option Nat → Nat
  | none => 10
  | some 0 => 10
  | some (n + 1) => n + 1

/-- `TaskService.getTask`: `SELECT * FROM tasks WHERE id = ? AND is_deleted = 0`,
returning the first matching row. -/
def getTask (st : DBState) (id : Nat) : Option Task :=
  st.tasks.find? (fun t => t.id == id && !t.is_deleted)

/-- `SyncService.resolveConflict`: last-write-wins on `updated_at`;
the local version is returned only when its timestamp is strictly later,
otherwise (including ties) the server version is returned. -/
def resolveConflict (localTask serverTask : Task) : Task :=
  if serverTask.updated_at < localTask.updated_at then localTask else serverTask

/-- Chunking loop of `createBatches`, with explicit fuel so that the
function is structurally recursive.  `items.length` fuel suffices whenever
`batchSize ≥ 1`, because every round consumes at least one item. -/
def chunkFuel {α : Type} : Nat → List α → Nat → List (List α)
  | 0, _, _ => []
  | _ + 1, [], _ => []
  | fuel + 1, items@(_ :: _), n => items.take n :: chunkFuel fuel (items.drop n) n

/-- `SyncService.createBatches`: `for (let i = 0; i < items.length; i += batchSize)
batches.push(items.slice(i, i + batchSize))`.  The source never reaches
`batchSize = 0` (the constructor's `|| 10` makes the size positive); the
model returns `[]` there. -/
def createBatches {α : Type} (items : List α) (batchSize : Nat) : List (List α) :=
  if batchSize = 0 then [] else chunkFuel items.length items batchSize

/-- `SyncService.getSyncQueueItems`:
`SELECT * FROM sync_queue WHERE retry_count < ? ORDER BY created_at ASC`
with parameter `MAX_RETRY_COUNT`.  The model's queue list is kept in
`created_at` ascending order, so the filter preserves the SQL's ordering. -/
def getSyncQueueItems (st : DBState) : List SyncQueueItem :=
  st.sync_queue.filter (fun q => q.retry_count < MAX_RETRY_COUNT)

/-- `SyncService.updateSyncStatus`: updates `sync_status`, `last_synced_at`
and (when the response carried one) `server_id` of the task row, then
deletes the queue entry when the status is `synced`. -/
def updateSyncStatus (st : DBState) (queueItemId taskId : Nat) (status : SyncStatus)
    (serverId : Option Nat) (now : Int) : DBState :=
  { st with
    tasks := st.tasks.map (fun t =>
      if t.id == taskId then
        { t with
          sync_status := status,
          last_synced_at := some now,
          server_id := if serverId.isSome then serverId else t.server_id }
      else t),
    sync_queue :=
      if status = SyncStatus.synced then
        st.sync_queue.filter (fun q => q.id != queueItemId)
      else st.sync_queue }

/-- `SyncService.handleSyncError`: increments the retry count; at or above
`MAX_RETRY_COUNT` the task is marked `error` and the queue entry deleted,
otherwise the new count and the error message are written back onto the
entry. -/
def handleSyncError (st : DBState) (item : SyncQueueItem) (errMsg : String) : DBState :=
  let newRetryCount := item.retry_count + 1
  if MAX_RETRY_COUNT ≤ newRetryCount then
    { st with
      tasks := st.tasks.map (fun t =>
        if t.id == item.task_id then { t with sync_status := SyncStatus.error } else t),
      sync_queue := st.sync_queue.filter (fun q => q.id != item.id) }
  else
    { st with
      sync_queue := st.sync_queue.map (fun q =>
        if q.id == item.id then
          { q with retry_count := newRetryCount, error_message := some errMsg }
        else q) }

/-- Error-outcome bookkeeping shared by the per-item error path and the
batch-failure path of `sync`: run `handleSyncError`, bump `failed_items`,
append the error record. -/
def failBatchStep (msg : String) (acc : SyncResult × DBState) (item : SyncQueueItem) :
    SyncResult × DBState :=
  ({ acc.1 with
     failed_items := acc.1.failed_items + 1,
     errors := acc.1.errors ++ [⟨item.task_id, item.operation, msg⟩] },
   handleSyncError acc.2 item msg)

/-- The `UPDATE tasks SET title, description, completed, updated_at,
sync_status, server_id, last_synced_at WHERE id = resolvedTask.id` statement
of the conflict branch of `sync`. -/
def conflictUpdate (st : DBState) (resolved : Task) (serverId : Option Nat) (now : Int) :
    DBState :=
  { st with
    tasks := st.tasks.map (fun t =>
      if t.id == resolved.id then
        { t with
          title := resolved.title,
          description := resolved.description,
          completed := resolved.completed,
          updated_at := resolved.updated_at,
          sync_status := SyncStatus.synced,
          server_id := serverId,
          last_synced_at := some now }
      else t) }

/-- Body of the `for (const processedItem of batchResponse.processed_items)`
loop of `SyncService.sync`.  Note the correlation used by the source:
`batch.find(item => item.task_id === processedItem.client_id)` — the lookup
compares the outcome's `client_id` against the entry's `task_id` (the entity
identifier), not against the entry's own `id`. -/
def applyProcessedItem (now : Int) (batch : List SyncQueueItem)
    (acc : SyncResult × DBState) (p : ProcessedItem) : SyncResult × DBState :=
  match batch.find? (fun item => item.task_id == p.client_id) with
  | none => acc
  | some queueItem =>
    match p.status, p.resolved_data with
    | OutcomeStatus.success, _ =>
      ({ acc.1 with synced_items := acc.1.synced_items + 1 },
       updateSyncStatus acc.2 queueItem.id queueItem.task_id SyncStatus.synced
         p.server_id now)
    | OutcomeStatus.conflict, some rd =>
      match getTask acc.2 queueItem.task_id with
      | none => acc
      | some localTask =>
        let resolved := resolveConflict localTask rd
        let st1 := conflictUpdate acc.2 resolved p.server_id now
        ({ acc.1 with synced_items := acc.1.synced_items + 1 },
         { st1 with sync_queue := st1.sync_queue.filter (fun q => q.id != queueItem.id) })
    | _, _ =>
      failBatchStep (p.error.getD "Unknown error") acc queueItem

/-- The `for (const batch of batches)` loop of `SyncService.sync`.  The last
component counts how many batch exchanges were issued to the remote
authority.  A responder value `Except.error msg` is the transport-level
failure caught by the per-batch `catch`, which pushes every entry of the
batch through `handleSyncError` and then continues with the next batch. -/
def runBatches (responder : List SyncQueueItem → Except String (List ProcessedItem))
    (now : Int) :
    List (List SyncQueueItem) → SyncResult → DBState → Nat → SyncResult × DBState × Nat
  | [], res, st, ex => (res, st, ex)
  | b :: rest, res, st, ex =>
    match responder b with
    | Except.ok ps =>
      let acc := ps.foldl (applyProcessedItem now b) (res, st)
      runBatches responder now rest acc.1 acc.2 (ex + 1)
    | Except.error msg =>
      let acc := b.foldl (failBatchStep msg) (res, st)
      runBatches responder now rest acc.1 acc.2 (ex + 1)

/-- The initial `SyncResult` literal built at the top of `sync`. -/
def emptyResult : SyncResult :=
  { success := true, synced_items := 0, failed_items := 0, errors := [] }

/-- Online part of `SyncService.sync`: drain the queue, return the initial
(successful) result untouched when it is empty, otherwise process all
batches and set `success` to `failed_items === 0`. -/
def syncOnline (batchSizeEnv : Option Nat)
    (responder : List SyncQueueItem → Except String (List ProcessedItem))
    (now : Int) (st : DBState) : SyncResult × DBState × Nat :=
  let queueItems := getSyncQueueItems st
  if queueItems.isEmpty then (emptyResult, st, 0)
  else
    let out := runBatches responder now
      (createBatches queueItems (syncBatchSizeOf batchSizeEnv)) emptyResult st 0
    ({ out.1 with success := out.1.failed_items == 0 }, out.2)

/-- `SyncService.sync`.  `isOnline` is the result of `checkConnectivity`;
when it is `false` the code throws `'Server is not reachable'`, which the
outer `catch` turns into the initial result with `success = false`,
returned with no store mutation and no remote exchange. -/
def sync (batchSizeEnv : Option Nat) (isOnline : Bool)
    (responder : List SyncQueueItem → Except String (List ProcessedItem))
    (now : Int) (st : DBState) : SyncResult × DBState × Nat :=
  if isOnline then syncOnline batchSizeEnv responder now st
  else ({ emptyResult with success := false }, st, 0)

/-- `SyncService.addToSyncQueue`: inserts one fresh entry with retry count 0. -/
def addToSyncQueue (st : DBState) (taskId : Nat) (op : Op) (payload : Payload)
    (now : Int) : DBState :=
  { st with
    sync_queue := st.sync_queue ++ [⟨st.nextId, taskId, op, payload, now, 0, none⟩],
    nextId := st.nextId + 1 }

/-- Argument record of `TaskService.createTask` (the caller-supplied part of
the task; `id`, `created_at`, `updated_at` are generated). -/
structure CreateTaskData where
  title : String
  description : Option String
  completed : Bool
  server_id : Option Nat
  last_synced_at : Option Int
  deriving Repr, DecidableEq

/-- `TaskService.createTask`: builds the task (fresh id, `sync_status =
pending`, `is_deleted = false`), inserts it into `tasks`, and itself inserts
a `create` entry with a second fresh id into `sync_queue`. -/
def createTask (st : DBState) (d : CreateTaskData) (now : Int) : Task × DBState :=
  let task : Task :=
    { id := st.nextId, title := d.title, description := d.description,
      completed := d.completed, created_at := now, updated_at := now,
      is_deleted := false, sync_status := SyncStatus.pending,
      server_id := d.server_id, last_synced_at := d.last_synced_at }
  (task,
   { st with
     tasks := st.tasks ++ [task],
     sync_queue := st.sync_queue ++
       [⟨st.nextId + 1, task.id, Op.create, Payload.snapshot task, now, 0, none⟩],
     nextId := st.nextId + 2 })

/-- Field updates accepted by the PUT route (`title`, `description`,
`completed`; an absent field leaves the stored value). -/
structure TaskUpdates where
  title : Option String
  description : Option (Option String)
  completed : Option Bool
  deriving Repr, DecidableEq

/-- `TaskService.updateTask`: merges the updates over the existing task,
forces `updated_at = now` and `sync_status = pending`, writes the columns of
its UPDATE statement back to the row, and itself inserts an `update` entry
with a fresh id into `sync_queue`.  Returns `none` (and leaves the store
untouched) when the task is absent or soft-deleted. -/
def updateTask (st : DBState) (id : Nat) (u : TaskUpdates) (now : Int) :
    Option Task × DBState :=
  match getTask st id with
  | none => (none, st)
  | some existingTask =>
    let updatedTask : Task :=
      { existingTask with
        title := u.title.getD existingTask.title,
        description := u.description.getD existingTask.description,
        completed := u.completed.getD existingTask.completed,
        updated_at := now,
        sync_status := SyncStatus.pending }
    (some updatedTask,
     { st with
       tasks := st.tasks.map (fun t =>
         if t.id == id then
           { t with
             title := updatedTask.title,
             description := updatedTask.description,
             completed := updatedTask.completed,
             updated_at := updatedTask.updated_at,
             sync_status := updatedTask.sync_status,
             server_id := updatedTask.server_id,
             last_synced_at := updatedTask.last_synced_at }
         else t),
       sync_queue := st.sync_queue ++
         [⟨st.nextId, updatedTask.id, Op.update, Payload.snapshot updatedTask, now, 0, none⟩],
       nextId := st.nextId + 1 })

/-- `TaskService.deleteTask`: soft delete.  Sets `is_deleted = 1`,
`updated_at = now`, `sync_status = pending` on the row and itself inserts a
`delete` entry (payload `{ id }`) with a fresh id into `sync_queue`. -/
def deleteTask (st : DBState) (id : Nat) (now : Int) : Bool × DBState :=
  match getTask st id with
  | none => (false, st)
  | some _ =>
    (true,
     { st with
       tasks := st.tasks.map (fun t =>
         if t.id == id then
           { t with is_deleted := true, updated_at := now,
                    sync_status := SyncStatus.pending }
         else t),
       sync_queue := st.sync_queue ++ [⟨st.nextId, id, Op.delete, Payload.idOnly id, now, 0, none⟩],
       nextId := st.nextId + 1 })

/-- POST `/` of `routes/tasks.ts`, mutation path: calls
`taskService.createTask` and then additionally calls
`syncService.addToSyncQueue(task.id, 'create', task)`.  The route's input
validation (a blank title is rejected with HTTP 400 before any mutation)
and the `trim()` normalisation of the text fields are not modelled; the
function covers every request on which a mutation is performed. -/
def postTaskRoute (st : DBState) (title : String) (descr : Option String) (now : Int) :
    Task × DBState :=
  let r := createTask st ⟨title, descr, false, none, none⟩ now
  (r.1, addToSyncQueue r.2 r.1.id Op.create (Payload.snapshot r.1) now)

/-- PUT `/:id` of `routes/tasks.ts`: calls `taskService.updateTask` and, when
it succeeds, additionally calls
`syncService.addToSyncQueue(updatedTask.id, 'update', updatedTask)`. -/
def putTaskRoute (st : DBState) (id : Nat) (u : TaskUpdates) (now : Int) :
    Option Task × DBState :=
  match updateTask st id u now with
  | (none, st1) => (none, st1)
  | (some t, st1) => (some t, addToSyncQueue st1 t.id Op.update (Payload.snapshot t) now)

/-- DELETE `/:id` of `routes/tasks.ts`: reads the task, calls
`taskService.deleteTask` and, when it succeeds, additionally calls
`syncService.addToSyncQueue(req.params.id, 'delete', task)` with the
pre-delete snapshot. -/
def deleteTaskRoute (st : DBState) (id : Nat) (now : Int) : Bool × DBState :=
  match getTask st id with
  | none => (false, st)
  | some task =>
    match deleteTask st id now with
    | (false, st1) => (false, st1)
    | (true, st1) => (true, addToSyncQueue st1 id Op.delete (Payload.snapshot task) now)

end TaskSync

namespace TaskSync

/-! ### Concrete scenario values used by closed theorems and witnesses -/

/-- Concrete task for the C1 scenario. -/
def taskC1 : Task := ⟨1, "x", none, false, 0, 0, false, SyncStatus.pending, none, none⟩

/-- Concrete queue entry for the C1 scenario: entry id 100, entity id 1. -/
def entryC1 : SyncQueueItem := ⟨100, 1, Op.create, Payload.snapshot taskC1, 0, 0, none⟩

/-- Store holding `taskC1` with the single pending entry `entryC1`. -/
def stC1 : DBState := ⟨[taskC1], [entryC1], 200⟩

/-- Outcome the repository's own `/batch` route would return for `entryC1`:
`client_id` is set to `item.id` (the entry identifier, 100), status success. -/
def respC1 : ProcessedItem := ⟨100, some 7, OutcomeStatus.success, none, none⟩

/-- C1: the spec requires outcomes to be correlated with queue entries by the
entry identifier the client sent.  The code instead looks the entry up by the
entity identifier (`item.task_id === processedItem.client_id`).  Evaluating
the cycle on the failing input — one pending entry (entry id 100, entity
id 1) answered by a success outcome keyed, as the repository's own `/batch`
route does, by the entry id 100 — the lookup finds nothing, the success is
silently ignored, the entry stays queued, the task stays `pending`, and the
cycle reports `success` with zero synced items. -/
theorem c1_correlation_by_entity_id_eval :
    sync none true (fun _ => Except.ok [respC1]) 0 stC1 =
      ({ success := true, synced_items := 0, failed_items := 0, errors := [] }, stC1, 1) := by
  decide

/-- C2: `resolveConflict` is a pure function of the two versions; the version
with the strictly later `updated_at` is returned in full, and on equal
timestamps the remote (server) version is returned. -/
theorem c2_resolveConflict_lww (l r : Task) :
    (r.updated_at < l.updated_at → resolveConflict l r = l) ∧
    (l.updated_at < r.updated_at → resolveConflict l r = r) ∧
    (l.updated_at = r.updated_at → resolveConflict l r = r) := by
  refine ⟨fun h => ?_, fun h => ?_, fun h => ?_⟩
  · simp [resolveConflict, h]
  · simp [resolveConflict, not_lt_of_lt h, lt_asymm h]
  · simp [resolveConflict, h]

/-- Task with `updated_at = 5` used by the C2 witness. -/
def taskA : Task := ⟨11, "a", none, false, 0, 5, false, SyncStatus.pending, none, none⟩

/-- Task with `updated_at = 3` used by the C2 witness. -/
def taskB : Task := ⟨12, "b", none, false, 0, 3, false, SyncStatus.pending, none, none⟩

/-- Task with `updated_at = 5` (tying `taskA`) used by the C2 witness. -/
def taskC : Task := ⟨13, "c", none, false, 0, 5, false, SyncStatus.pending, none, none⟩

/-- C2 witness: a strictly later local version wins, a strictly later remote
version wins, and a tie selects the remote version. -/
theorem c2_resolveConflict_lww_witness :
    resolveConflict taskA taskB = taskA ∧
    resolveConflict taskB taskA = taskA ∧
    resolveConflict taskC taskA = taskA :=
  ⟨(c2_resolveConflict_lww taskA taskB).1 (by decide),
   (c2_resolveConflict_lww taskB taskA).2.1 (by decide),
   (c2_resolveConflict_lww taskC taskA).2.2 (by decide)⟩

/-- C3 counterexample: the claim says no cycle ever returns `success = false`
with zero failed items, but a cycle whose connectivity probe fails does
exactly that — the thrown `'Server is not reachable'` is caught and the
initial result is returned with `success = false` and `failed_items = 0`. -/
theorem c3_offline_cycle_counterexample :
    (sync none false (fun _ => Except.error "e") 0 (⟨[], [], 0⟩ : DBState)).1.success = false ∧
    (sync none false (fun _ => Except.error "e") 0 (⟨[], [], 0⟩ : DBState)).1.failed_items = 0 := by
  decide

/-- C3 (amended): for every cycle that is not aborted by the connectivity
probe (so the code reaches `result.success = result.failed_items === 0`),
the reported `success` flag equals the test that the failed count is zero. -/
theorem c3_online_success_iff_no_failures (env : Option Nat)
    (responder : List SyncQueueItem → Except String (List ProcessedItem))
    (now : Int) (st : DBState) :
    (sync env true responder now st).1.success =
      ((sync env true responder now st).1.failed_items == 0) := by
  simp only [sync, if_pos, syncOnline]
  by_cases h : (getSyncQueueItems st).isEmpty
  · simp [h, emptyResult]
  · simp [h]

/-- C4: the spec claims a default batch size of 50 (the README documents 50
as well), but the constructor's fallback `Number(process.env.SYNC_BATCH_SIZE)
|| 10` yields 10, so 50 drained entries are split into five batches of ten
rather than one batch of fifty; the partition does preserve entry order. -/
theorem c4_default_batch_size_eval :
    syncBatchSizeOf none = 10 ∧
    (createBatches (List.range 50) (syncBatchSizeOf none)).length = 5 ∧
    (createBatches (List.range 50) (syncBatchSizeOf none)).flatten = List.range 50 := by
  decide

/-- C7: a cycle whose connectivity probe reports the remote authority
unreachable returns the failure result immediately, leaves the store (tasks
and sync queue) untouched, and issues zero batch exchanges. -/
theorem c7_offline_no_mutation (env : Option Nat)
    (responder : List SyncQueueItem → Except String (List ProcessedItem))
    (now : Int) (st : DBState) :
    sync env false responder now st =
      ({ success := false, synced_items := 0, failed_items := 0, errors := [] }, st, 0) :=
  rfl

end TaskSync

namespace TaskSync

/-- C5: the failure handler increments the retry count by exactly one; when
the new count reaches `MAX_RETRY_COUNT` (3) the entry is removed from the
queue and every task row with the entry's entity identifier is marked
`error`; otherwise the queue keeps its length and contains the entry with
the incremented count and the error message persisted on it. -/
theorem c5_handleSyncError_retry (st : DBState) (item : SyncQueueItem) (msg : String)
    (hmem : item ∈ st.sync_queue) :
    (item.retry_count + 1 = MAX_RETRY_COUNT →
      (∀ q ∈ (handleSyncError st item msg).sync_queue, q.id ≠ item.id) ∧
      (∀ t ∈ (handleSyncError st item msg).tasks, t.id = item.task_id →
        t.sync_status = SyncStatus.error)) ∧
    (item.retry_count + 1 < MAX_RETRY_COUNT →
      (handleSyncError st item msg).sync_queue.length = st.sync_queue.length ∧
      ∃ q ∈ (handleSyncError st item msg).sync_queue,
        q.id = item.id ∧ q.retry_count = item.retry_count + 1 ∧
        q.error_message = some msg) := by
  constructor
  · intro h1
    have hc : MAX_RETRY_COUNT ≤ item.retry_count + 1 := by omega
    constructor
    · intro q hq
      simp only [handleSyncError, if_pos hc] at hq
      simp only [List.mem_filter, bne_iff_ne, ne_eq, decide_eq_true_eq] at hq
      exact hq.2
    · intro t ht hid
      simp only [handleSyncError, if_pos hc] at ht
      simp only [List.mem_map] at ht
      obtain ⟨t0, _, heq⟩ := ht
      by_cases h0 : t0.id = item.task_id
      · simp [h0] at heq
        rw [← heq]
      · simp [h0] at heq
        rw [← heq] at hid
        exact absurd hid h0
  · intro h2
    have hc : ¬ MAX_RETRY_COUNT ≤ item.retry_count + 1 := by omega
    refine ⟨by simp [handleSyncError, if_neg hc], ?_⟩
    refine ⟨{ item with retry_count := item.retry_count + 1, error_message := some msg },
      ?_, rfl, rfl, rfl⟩
    simp only [handleSyncError, if_neg hc]
    exact List.mem_map.mpr ⟨item, hmem, by simp⟩

/-- Queue entry at retry count 0 for the C5 witness (non-final branch). -/
def entryW5 : SyncQueueItem := ⟨9, 1, Op.update, Payload.idOnly 1, 0, 0, none⟩

/-- Store holding only `entryW5`. -/
def stW5 : DBState := ⟨[], [entryW5], 0⟩

/-- Task referenced by `entryW5b`. -/
def taskW5 : Task := ⟨1, "t", none, false, 0, 0, false, SyncStatus.pending, none, none⟩

/-- Queue entry at retry count 2 for the C5 witness (its next failure
reaches the maximum). -/
def entryW5b : SyncQueueItem := ⟨9, 1, Op.update, Payload.idOnly 1, 0, 2, none⟩

/-- Store holding `taskW5` and `entryW5b`. -/
def stW5b : DBState := ⟨[taskW5], [entryW5b], 0⟩

/-- C5 witness: a third failure removes the entry and marks the task
`error`; a first failure keeps the entry queued with retry count 1 and the
message persisted. -/
theorem c5_handleSyncError_retry_witness :
    ((∀ q ∈ (handleSyncError stW5b entryW5b "boom").sync_queue, q.id ≠ entryW5b.id) ∧
     (∀ t ∈ (handleSyncError stW5b entryW5b "boom").tasks, t.id = entryW5b.task_id →
        t.sync_status = SyncStatus.error)) ∧
    ((handleSyncError stW5 entryW5 "boom").sync_queue.length = stW5.sync_queue.length ∧
     ∃ q ∈ (handleSyncError stW5 entryW5 "boom").sync_queue,
        q.id = entryW5.id ∧ q.retry_count = entryW5.retry_count + 1 ∧
        q.error_message = some "boom") :=
  ⟨(c5_handleSyncError_retry stW5b entryW5b "boom" (by decide)).1 (by decide),
   (c5_handleSyncError_retry stW5 entryW5 "boom" (by decide)).2 (by decide)⟩

/-- Accumulator shape of the batch-failure loop: folding `failBatchStep`
over a batch adds one failed item and one error record per entry and pushes
every entry through `handleSyncError`. -/
theorem failBatch_foldl (msg : String) (b : List SyncQueueItem) (res : SyncResult)
    (st : DBState) :
    b.foldl (failBatchStep msg) (res, st) =
      ({ res with
         failed_items := res.failed_items + b.length,
         errors := res.errors ++ b.map (fun i => ⟨i.task_id, i.operation, msg⟩) },
       b.foldl (fun s i => handleSyncError s i msg) st) := by
  induction b generalizing res st with
  | nil => simp
  | cons x xs ih =>
    simp only [List.foldl_cons, List.map_cons, List.length_cons, failBatchStep]
    rw [ih]
    simp only [Prod.mk.injEq, SyncResult.mk.injEq]
    refine ⟨⟨trivial, trivial, by omega, by simp⟩, trivial⟩

/-- C6: when the remote exchange for a whole batch fails at the transport
level, every entry of that batch is passed individually through
`handleSyncError`, the failed count grows by the batch size with one error
record per entry, and the cycle goes on to process the remaining batches
(the loop is a total function, so the failure is aggregated into the
result, never thrown past the cycle boundary). -/
theorem c6_batch_transport_failure
    (responder : List SyncQueueItem → Except String (List ProcessedItem))
    (now : Int) (msg : String) (b : List SyncQueueItem)
    (rest : List (List SyncQueueItem)) (res : SyncResult) (st : DBState) (ex : Nat)
    (h : responder b = Except.error msg) :
    runBatches responder now (b :: rest) res st ex =
      runBatches responder now rest
        { res with
          failed_items := res.failed_items + b.length,
          errors := res.errors ++ b.map (fun i => ⟨i.task_id, i.operation, msg⟩) }
        (b.foldl (fun s i => handleSyncError s i msg) st) (ex + 1) := by
  simp only [runBatches, h, failBatch_foldl]

/-- Queue entry for the C6 witness. -/
def entryW6 : SyncQueueItem := ⟨5, 2, Op.create, Payload.idOnly 2, 0, 0, none⟩

/-- Store holding only `entryW6`. -/
def stW6 : DBState := ⟨[], [entryW6], 10⟩

/-- C6 witness: a one-entry batch whose exchange fails with message `"net"`
is accounted as one failed item with its error record, the entry goes
through `handleSyncError`, and the loop continues on the remaining (empty)
batch list. -/
theorem c6_batch_transport_failure_witness :
    runBatches (fun _ => Except.error "net") 0 [[entryW6]] emptyResult stW6 0 =
      runBatches (fun _ => Except.error "net") 0 []
        { emptyResult with
          failed_items := emptyResult.failed_items + [entryW6].length,
          errors := emptyResult.errors ++
            [entryW6].map (fun i => ⟨i.task_id, i.operation, "net"⟩) }
        ([entryW6].foldl (fun s i => handleSyncError s i "net") stW6) 1 :=
  c6_batch_transport_failure _ 0 "net" [entryW6] [] emptyResult stW6 0 rfl

/-- C8: a cycle whose drain returns no entries (none below the retry
ceiling) returns the successful zero/zero result, leaves the store
untouched, and issues zero batch exchanges. -/
theorem c8_empty_queue_trivial_success (env : Option Nat)
    (responder : List SyncQueueItem → Except String (List ProcessedItem))
    (now : Int) (st : DBState) (h : getSyncQueueItems st = []) :
    sync env true responder now st = (emptyResult, st, 0) := by
  simp [sync, syncOnline, h]

/-- C8 witness: a store whose only queue entry sits at the retry ceiling
drains to nothing, so the cycle is trivially successful, mutates nothing
and never calls the responder. -/
theorem c8_empty_queue_trivial_success_witness :
    sync none true (fun _ => Except.error "down") 0
        (⟨[], [⟨1, 1, Op.create, Payload.idOnly 1, 0, 3, none⟩], 0⟩ : DBState) =
      (emptyResult, (⟨[], [⟨1, 1, Op.create, Payload.idOnly 1, 0, 3, none⟩], 0⟩ : DBState), 0) :=
  c8_empty_queue_trivial_success none _ 0 _ (by decide)

/-- C9: a conflict outcome (carrying resolved data) whose matched queue
entry refers to an entity that `getTask` cannot read (absent, or excluded
because it is soft-deleted) changes nothing: the result counters and the
store, including the queue entry and its retry count, are untouched. -/
theorem c9_conflict_missing_local_noop (now : Int) (batch : List SyncQueueItem)
    (res : SyncResult) (st : DBState) (p : ProcessedItem) (qi : SyncQueueItem) (rd : Task)
    (hs : p.status = OutcomeStatus.conflict) (hr : p.resolved_data = some rd)
    (hf : batch.find? (fun i => i.task_id == p.client_id) = some qi)
    (hg : getTask st qi.task_id = none) :
    applyProcessedItem now batch (res, st) p = (res, st) := by
  simp [applyProcessedItem, hf, hs, hr, hg]

/-- Soft-deleted task for the C9 witness. -/
def taskW9 : Task := ⟨1, "t", none, false, 0, 0, true, SyncStatus.pending, none, none⟩

/-- Server-side version carried by the conflict outcome of the C9 witness. -/
def serverW9 : Task := ⟨1, "s", none, false, 0, 9, false, SyncStatus.synced, none, none⟩

/-- Queue entry referencing the soft-deleted task. -/
def entryW9 : SyncQueueItem := ⟨50, 1, Op.update, Payload.idOnly 1, 0, 0, none⟩

/-- Store holding the soft-deleted task and its pending entry. -/
def stW9 : DBState := ⟨[taskW9], [entryW9], 60⟩

/-- Conflict outcome for the C9 witness. -/
def pW9 : ProcessedItem := ⟨1, some 3, OutcomeStatus.conflict, some serverW9, none⟩

/-- C9 witness: the conflict outcome for the soft-deleted entity leaves the
result and the store exactly as they were. -/
theorem c9_conflict_missing_local_noop_witness :
    applyProcessedItem 0 [entryW9] (emptyResult, stW9) pW9 = (emptyResult, stW9) :=
  c9_conflict_missing_local_noop 0 [entryW9] emptyResult stW9 pW9 entryW9 serverW9
    rfl rfl (by decide) (by decide)

/-- C10: each mutating task route appends exactly two queue entries with
distinct entry identifiers for one mutation — one inserted by the
`TaskService` mutation method itself and one by the route's extra
`addToSyncQueue` call.  For PUT and DELETE the mutation happens (and the
claim applies) exactly when the task is readable. -/
theorem c10_routes_double_enqueue (st : DBState) (now : Int) :
    (∀ title descr,
      ∃ e1 e2, (postTaskRoute st title descr now).2.sync_queue = st.sync_queue ++ [e1, e2] ∧
        e1.id ≠ e2.id) ∧
    (∀ id u t0, getTask st id = some t0 →
      ∃ e1 e2, (putTaskRoute st id u now).2.sync_queue = st.sync_queue ++ [e1, e2] ∧
        e1.id ≠ e2.id) ∧
    (∀ id t0, getTask st id = some t0 →
      ∃ e1 e2, (deleteTaskRoute st id now).2.sync_queue = st.sync_queue ++ [e1, e2] ∧
        e1.id ≠ e2.id) := by
  refine ⟨fun title descr => ?_, fun id u t0 h => ?_, fun id t0 h => ?_⟩
  · simp only [postTaskRoute, createTask, addToSyncQueue]
    exact ⟨_, _, List.append_assoc _ _ _, by show st.nextId + 1 ≠ st.nextId + 2; omega⟩
  · simp only [putTaskRoute, updateTask, h, addToSyncQueue]
    exact ⟨_, _, List.append_assoc _ _ _, by show st.nextId ≠ st.nextId + 1; omega⟩
  · simp only [deleteTaskRoute, deleteTask, h, addToSyncQueue]
    exact ⟨_, _, List.append_assoc _ _ _, by show st.nextId ≠ st.nextId + 1; omega⟩

/-- Existing task for the C10 witness. -/
def taskW10 : Task := ⟨0, "w", none, false, 0, 0, false, SyncStatus.pending, none, none⟩

/-- Store holding `taskW10` with an empty queue. -/
def stW10 : DBState := ⟨[taskW10], [], 1⟩

/-- C10 witness: concrete POST, PUT and DELETE requests each append exactly
two queue entries with distinct identifiers. -/
theorem c10_routes_double_enqueue_witness :
    (∃ e1 e2, (postTaskRoute stW10 "t" none 0).2.sync_queue = stW10.sync_queue ++ [e1, e2] ∧
      e1.id ≠ e2.id) ∧
    (∃ e1 e2, (putTaskRoute stW10 0 ⟨none, none, none⟩ 0).2.sync_queue =
      stW10.sync_queue ++ [e1, e2] ∧ e1.id ≠ e2.id) ∧
    (∃ e1 e2, (deleteTaskRoute stW10 0 0).2.sync_queue = stW10.sync_queue ++ [e1, e2] ∧
      e1.id ≠ e2.id) :=
  ⟨(c10_routes_double_enqueue stW10 0).1 "t" none,
   (c10_routes_double_enqueue stW10 0).2.1 0 ⟨none, none, none⟩ taskW10 (by decide),
   (c10_routes_double_enqueue stW10 0).2.2 0 taskW10 (by decide)⟩

end TaskSync
